import Mathlib

/-!
Shallow embedding of the Perfect Gigs backend (`backend/server.py`) and
verification of its specification claims.

Modelling conventions:
* Machine time is modelled as `Int` seconds since the epoch; calendar dates
  (the `duration_start`/`duration_end` strings) are modelled as `Int` day
  numbers.
* Python floats (budgets, ratings) are modelled as exact rationals `ℚ`.
* The external Supabase store is modelled as in-memory lists of rows; a
  handler that the claims exercise under store failure additionally takes a
  `dbErr : Option String` parameter: `some e` means the first store call
  raises an exception with message `e` (caught by the handler's `except`).
* JWTs are modelled symbolically: `Token.signed p s` is a well-formed token
  over payload `p` signed with secret `s`; `Token.malformed` is any byte
  string that does not decode (shape mismatch).  `jwtDecode` follows PyJWT:
  a wrong secret or malformed token raises `InvalidTokenError`, and the
  `exp` claim is rejected exactly when `exp <= now` (PyJWT `_validate_exp`
  with zero leeway), i.e. the token is valid strictly before its expiry.
* Missing optional row fields are modelled with `Option` (`none` = the
  column was never written / was removed from the response dict).
-/

namespace PerfectGigs

/-! ## JWT model (`create_access_token`, `get_current_user`) -/

def JWT_SECRET : String :=
  "m4soO9yIK7mCxM2LZYlFCmfoM5M95CX9HITEbRE+u016ceMuxdAxoaeZrvOO9rSKiRj2JqvhwLJCsKhrEj8R/A=="

def JWT_EXPIRATION_HOURS : Int := 24 * 7  -- 7 days

structure Payload where
  sub : Option String
  email : Option String
  exp : Int
  iat : Int
  deriving DecidableEq, Repr

inductive Token where
  | signed (p : Payload) (secret : String)
  | malformed (raw : String)
  deriving DecidableEq, Repr

inductive DecodeResult where
  | ok (p : Payload)
  | expired
  | invalid
  deriving DecidableEq, Repr

/-- `jwt.encode(payload, secret, algorithm="HS256")`. -/
def jwtEncode (secret : String) (p : Payload) : Token := .signed p secret

/-- `jwt.decode(token, secret, algorithms=["HS256"])` at wall-clock `now`:
signature checked first, then the `exp` claim (expired iff `exp ≤ now`). -/
def jwtDecode (t : Token) (secret : String) (now : Int) : DecodeResult :=
  match t with
  | .malformed _ => .invalid
  | .signed p s =>
      if s = secret then
        if p.exp ≤ now then .expired else .ok p
      else .invalid

/-- `create_access_token(user_id, email)` called at wall-clock `now`:
payload {sub, email, exp = now + 7 days, iat = now} signed with `JWT_SECRET`. -/
def create_access_token (now : Int) (user_id : String) (email : String) : Token :=
  jwtEncode JWT_SECRET
    { sub := some user_id
      email := some email
      exp := now + JWT_EXPIRATION_HOURS * 3600
      iat := now }

structure UserObj where
  id : String
  email : Option String
  deriving DecidableEq, Repr

/-! ## Store rows

Row structures carry the columns the handlers under verification read or
write.  Columns a code path leaves unset (e.g. `show_phone` for profiles
created from Telegram) take the store's default; `password_hash` is
`Option`-valued because its presence in a row / response dict is itself
under verification (C10). -/

structure Profile where
  id : String
  email : String
  name : String
  password_hash : Option String
  bio : String
  location : String
  skills : List String
  rating : ℚ
  total_reviews : Nat
  is_freelancer : Bool
  freelancer_categories : List String
  freelancer_availability : String
  show_phone : Bool
  show_email : Bool
  created_at : Int
  deriving DecidableEq, Repr

structure Gig where
  id : String
  title : String
  description : String
  category : String
  location : String
  budget_min : ℚ
  budget_max : ℚ
  duration_start : Int
  duration_end : Int
  people_needed : Nat
  is_urgent : Bool
  status : String
  created_by : String
  created_at : Int
  applications_count : Nat
  deriving DecidableEq, Repr

structure Application where
  id : String
  gig_id : String
  applicant_id : String
  cover_letter : Option String
  status : String
  created_at : Int
  deriving DecidableEq, Repr

structure Review where
  id : String
  reviewer_id : String
  reviewed_user_id : String
  gig_id : String
  rating : Int
  comment : Option String
  created_at : Int
  deriving DecidableEq, Repr

structure Store where
  profiles : List Profile
  gigs : List Gig
  applications : List Application
  reviews : List Review
  deriving DecidableEq, Repr

/-- An insert prepends the new row; list order therefore stands for the
store's `created_at desc` order for rows inserted by this process. -/
def Store.empty : Store := ⟨[], [], [], []⟩

/-! ## Shared helpers -/

/-- Symbolic stand-in for `pwd_context.hash` (bcrypt): the only property the
claims use is that signup stores some hash derived from the password. -/
def hash_password (password : String) : String := "$2b$12$" ++ password

/-- Python `sub in s` (substring containment). -/
def strContains (s sub : String) : Bool := decide (sub.toList <:+: s.toList)

def containsAny (s : String) (ws : List String) : Bool :=
  ws.any (fun w => strContains s w)

/-- Python `s.strip()`. -/
def pyStrip (s : String) : String :=
  ⟨((s.toList.dropWhile Char.isWhitespace).reverse.dropWhile Char.isWhitespace).reverse⟩

/-- Python `s.lower()`. -/
def pyLower (s : String) : String := ⟨s.toList.map Char.toLower⟩

/-- `cs.split(sep)` for a one-character separator, Python semantics
(`"".split("-") = [""]`, `"-5".split("-") = ["", "5"]`). -/
def splitOnChar (sep : Char) (cs : List Char) : List (List Char) :=
  match cs with
  | [] => [[]]
  | c :: rest =>
      let r := splitOnChar sep rest
      if c = sep then [] :: r
      else
        match r with
        | [] => [[c]]
        | h :: t => (c :: h) :: t

/-- Python `s.split()` (split on whitespace runs, no empty tokens). -/
def splitWsAux (cs : List Char) (cur : List Char) : List (List Char) :=
  match cs with
  | [] => if cur = [] then [] else [cur.reverse]
  | c :: rest =>
      if c.isWhitespace then
        if cur = [] then splitWsAux rest []
        else cur.reverse :: splitWsAux rest []
      else splitWsAux rest (c :: cur)

def pySplitWs (s : String) : List String :=
  (splitWsAux s.toList []).map (fun cs => ⟨cs⟩)

/-- Python `round(q)` to an integer: round half to even (documentation of
`round`); floats are modelled as exact rationals. -/
def roundHalfEven (q : ℚ) : Int :=
  let f : Int := ⌊q⌋
  let r : ℚ := q - (f : ℚ)
  if r < 1 / 2 then f
  else if 1 / 2 < r then f + 1
  else if f % 2 = 0 then f else f + 1

/-- Python `round(q, 1)`. -/
def pyRound1 (q : ℚ) : ℚ := (roundHalfEven (q * 10) : ℚ) / 10

/-! ## REST handlers

Each handler returns `Except (status × detail) response` together with the
store after its writes; a plain `.ok` return is served as HTTP 200 by the
framework.  `dbErr = some e` models the store client raising an exception
with message `e` on the handler's store call (the handler's broad `except`
then translates it). -/

structure UserSignup where
  email : String
  password : String
  name : String
  deriving DecidableEq, Repr

structure SignupResponse where
  user : Profile
  access_token : Token
  deriving DecidableEq, Repr

/-- `POST /api/auth/signup`: reject an already-registered email with 400,
otherwise insert one profile (with `password_hash` set), return a token and
the profile dict with `password_hash` deleted; any exception becomes
`400 str(e)`. -/
def signup (store : Store) (dbErr : Option String) (data : UserSignup)
    (uid : String) (now : Int) : Except (Nat × String) SignupResponse × Store :=
  match dbErr with
  | some e => (.error (400, e), store)
  | none =>
      let existing := store.profiles.filter (fun p => p.email == data.email)
      if existing.length > 0 then
        (.error (400, "Email already registered"), store)
      else
        let profile_data : Profile :=
          { id := uid, email := data.email, name := data.name
            password_hash := some (hash_password data.password)
            bio := "", location := "", skills := []
            rating := 0, total_reviews := 0, is_freelancer := false
            freelancer_categories := [], freelancer_availability := ""
            show_phone := false, show_email := false, created_at := now }
        let store' := { store with profiles := profile_data :: store.profiles }
        let token := create_access_token now uid data.email
        (.ok ⟨{ profile_data with password_hash := none }, token⟩, store')

/-- `GET /api/profile/{user_id}`: return the stored row exactly as stored
(`select("*")` with no response shaping); a lookup miss is 404. -/
def get_profile (store : Store) (user_id : String) :
    Except (Nat × String) Profile :=
  match store.profiles.find? (fun p => p.id == user_id) with
  | some p => .ok p
  | none => .error (404, "Profile not found")

structure ListGigsResult where
  gigs : List Gig
  count : Nat
  deriving DecidableEq, Repr

/-- `GET /api/gigs`: equality filters on category / urgency / status (the
status filter is skipped for a falsy i.e. empty status), case-insensitive
substring filter on location, newest first, page `[offset, offset+limit)`;
any exception becomes `400 str(e)`. -/
def list_gigs (store : Store) (dbErr : Option String)
    (category location : Option String) (is_urgent : Option Bool)
    (status : String) (limit offset : Nat) :
    Except (Nat × String) ListGigsResult :=
  match dbErr with
  | some e => .error (400, e)
  | none =>
      let q := store.gigs.filter (fun g =>
        (match category with | some c => g.category == c | none => true) &&
        (match location with
         | some l => strContains (pyLower g.location) (pyLower l)
         | none => true) &&
        (match is_urgent with | some u => g.is_urgent == u | none => true) &&
        (if status == "" then true else g.status == status))
      let page := (q.drop offset).take limit
      .ok ⟨page, page.length⟩

structure StatsResult where
  open_gigs : Nat
  freelancers : Nat
  deriving DecidableEq, Repr

/-- `GET /api/stats`: counts of open gigs and freelancer profiles; any
exception is swallowed and `{success: True, stats: zeros}` returned with
HTTP 200. -/
def get_stats (store : Store) (dbErr : Option String) : StatsResult :=
  match dbErr with
  | some _ => ⟨0, 0⟩
  | none =>
      ⟨(store.gigs.filter (fun g => g.status == "open")).length,
       (store.profiles.filter (fun p => p.is_freelancer)).length⟩

/-- `POST /api/gigs/{gig_id}/apply`: a pre-check on (gig, applicant) rejects
a duplicate with 400 before inserting; otherwise one application row with
status "pending" is inserted and the gig's counter incremented through the
`increment_applications_count` stored procedure (modelled from the spec:
the procedure body is not in the repository; per the spec it increments the
gig's applicant counter). -/
def apply_to_gig (store : Store) (gig_id : String) (userId : String)
    (cover_letter : Option String) (appId : String) (now : Int) :
    Except (Nat × String) Application × Store :=
  let existing := store.applications.filter
    (fun a => a.gig_id == gig_id && a.applicant_id == userId)
  if existing.length > 0 then
    (.error (400, "Already applied"), store)
  else
    let app : Application :=
      { id := appId, gig_id := gig_id, applicant_id := userId
        cover_letter := cover_letter, status := "pending", created_at := now }
    let store1 := { store with applications := app :: store.applications }
    let store2 := { store1 with gigs := store1.gigs.map (fun g =>
      if g.id == gig_id then { g with applications_count := g.applications_count + 1 }
      else g) }
    (.ok app, store2)

structure ReviewCreate where
  reviewed_user_id : String
  gig_id : String
  rating : Int
  comment : Option String
  deriving DecidableEq, Repr

/-- Ratings stored for subject `u` in a review list. -/
def ratingsFor (reviews : List Review) (u : String) : List Int :=
  (reviews.filter (fun r => r.reviewed_user_id == u)).map (fun r => r.rating)

/-- `POST /api/reviews`: insert the review, re-read all reviews of the
subject, write mean (rounded to one decimal) and count onto the subject's
profile. -/
def create_review (store : Store) (reviewerId : String) (data : ReviewCreate)
    (rid : String) (now : Int) : Store × Review :=
  let review : Review :=
    { id := rid, reviewer_id := reviewerId
      reviewed_user_id := data.reviewed_user_id, gig_id := data.gig_id
      rating := data.rating, comment := data.comment, created_at := now }
  let reviews' := review :: store.reviews
  let ratings := ratingsFor reviews' data.reviewed_user_id
  let avg_rating : ℚ := ((ratings.map (fun r => (r : ℚ))).sum) / ratings.length
  let profiles' := store.profiles.map (fun p =>
    if p.id == data.reviewed_user_id then
      { p with rating := pyRound1 avg_rating, total_reviews := ratings.length }
    else p)
  ({ store with reviews := reviews', profiles := profiles' }, review)

/-! ## Telegram bot (sessions, wizard state machine)

`telegram_chat` is embedded as a pure step function over one chat's session
plus the store.  Nondeterministic inputs of a call are explicit parameters:
the outcome of the completion-API call (`AICallResult`), the fresh gig
UUID, and the current date (`today`, a day number, also standing in for
`created_at`). -/

inductive WizardMode where
  | postGig
  | registerFreelancer
  deriving DecidableEq, Repr

/-- One chat's entry in `telegram_sessions`; history entries are
(role, content) pairs. -/
structure Session where
  history : List (String × String)
  wizard_mode : Option WizardMode
  wizard_step : Nat
  wizard_data : List (String × String)
  user_name : String
  deriving DecidableEq, Repr

/-- The fresh session built when `chat_id` is not in `telegram_sessions`. -/
def initSession (user_name : Option String) : Session :=
  ⟨[], none, 0, [], user_name.getD "User"⟩

structure TelegramMessage where
  chat_id : String
  message : String
  user_name : Option String
  deriving DecidableEq, Repr

structure TgResponse where
  success : Bool
  response : String
  deriving DecidableEq, Repr

/-- Outcome of one `POST` to the completion API. -/
inductive AICallResult where
  | success (text : String)
  | httpError (code : Nat)
  | exception
  deriving DecidableEq, Repr

def GIG_CATEGORIES : List String :=
  ["Web Development", "Mobile Development", "UI/UX Design", "Graphic Design",
   "Content Writing", "Video Editing", "Social Media", "Data Entry",
   "Virtual Assistant", "Translation", "Tutoring", "Photography",
   "Music & Audio", "Marketing", "Delivery", "Other"]

def TELEGRAM_GIG_STEPS : List (String × String) :=
  [("title", "What's the title of your gig?"),
   ("description", "Describe what you need done:"),
   ("category", "What category? Choose from:\n" ++ String.intercalate ", " GIG_CATEGORIES),
   ("location", "Where is this gig based? (or 'Remote')"),
   ("budget", "What's your budget range? (e.g., 50-100)"),
   ("duration", "How many days until deadline? (e.g., 7, 14, 30)")]

def TELEGRAM_FREELANCER_STEPS : List (String × String) :=
  [("categories", "What skills do you offer? (comma-separated)\nCategories: " ++
      String.intercalate ", " (GIG_CATEGORIES.take 8) ++ "..."),
   ("availability", "Your availability? (Full-time, Part-time, Weekends, Flexible)"),
   ("location", "Where are you located?"),
   ("bio", "Tell me about yourself and your experience:")]

def cancelWords : List String := ["cancel", "stop", "quit", "exit"]

def postGigWords : List String :=
  ["post gig", "create gig", "new gig", "post a gig", "create a gig"]

def freelancerWords : List String :=
  ["register freelancer", "become freelancer", "freelancer registration",
   "register as freelancer"]

def findGigWords : List String :=
  ["find gig", "search gig", "find work", "search work", "find job", "browse gig"]

/-- Python dict assignment `d[k] = v` on a dict kept as an association list
in insertion order. -/
def dictSet (d : List (String × String)) (k v : String) : List (String × String) :=
  match d with
  | [] => [(k, v)]
  | (k', v') :: rest => if k' = k then (k, v) :: rest else (k', v') :: dictSet rest k v

/-- Python `d.get(k)`. -/
def dictGet (d : List (String × String)) (k : String) : Option String :=
  match d with
  | [] => none
  | (k', v') :: rest => if k' = k then some v' else dictGet rest k

/-- Python `l[-n:]`. -/
def takeLast (n : Nat) (l : List α) : List α := l.drop (l.length - n)

/-- Python `a or b` for an optional string `a` (falsy = absent or empty). -/
def pyOrStr (a : Option String) (b : String) : String :=
  match a with
  | some s => if s = "" then b else s
  | none => b

/-- Digit-string value; `none` when empty or any character is not a digit.
Conservative model of Python numeric parsing: whenever it yields a value,
`float`/`int` yield the same value. -/
def digitsVal (cs : List Char) : Option Nat :=
  cs.foldl
    (fun acc c => acc.bind (fun n =>
      if c.isDigit then some (n * 10 + (c.toNat - 48)) else none))
    (some 0)

def parseDigits (cs : List Char) : Option Nat :=
  if cs.isEmpty then none else digitsVal cs

/-- Python `float(s)` restricted to `digits` / `digits.digits`. -/
def parseFloat (cs : List Char) : Option ℚ :=
  match splitOnChar '.' cs with
  | [ip] => (parseDigits ip).map (fun n => (n : ℚ))
  | [ip, fp] =>
      match parseDigits ip, parseDigits fp with
      | some i, some f => some ((i : ℚ) + (f : ℚ) / ((10 : ℚ) ^ fp.length))
      | _, _ => none
  | _ => none

/-- Budget parsing in `create_gig_from_telegram`: strip `$` and spaces
(`.replace` with the empty string), split on `-`; one part means (v, v*2),
several mean (first, last). -/
def parseBudget (s : String) : Option (ℚ × ℚ) :=
  let cleaned := s.toList.filter (fun c => !(c = '$' || c = ' '))
  match splitOnChar '-' cleaned with
  | [] => none
  | [p] => (parseFloat p).map (fun m => (m, m * 2))
  | p :: q :: rest =>
      match parseFloat p, parseFloat ((q :: rest).getLast (List.cons_ne_nil q rest)) with
      | some m, some M => some (m, M)
      | _, _ => none

/-- Python `int(s.split()[0])` (whitespace split, first token). -/
def parseDuration (s : String) : Option Int :=
  match splitWsAux s.toList [] with
  | [] => none
  | t :: _ => (parseDigits t).map Int.ofNat

/-- `create_gig_from_telegram`: parse budget and duration, ensure a
`telegram_{chat_id}` profile exists, insert one gig; a parse failure raises
before any store call, returning `None`. -/
def createGigFromTelegram (data : List (String × String)) (chatId userName : String)
    (store : Store) (gigId : String) (today : Int) : Store × Option Gig :=
  match parseBudget ((dictGet data "budget").getD "50-100") with
  | none => (store, none)
  | some (bmin, bmax) =>
      match parseDuration ((dictGet data "duration").getD "30") with
      | none => (store, none)
      | some days =>
          let userId := "telegram_" ++ chatId
          let store1 :=
            if store.profiles.any (fun p => p.id == userId) then store
            else { store with profiles :=
              { id := userId, email := userId ++ "@telegram.user", name := userName
                password_hash := none, bio := "Telegram User", location := ""
                skills := [], rating := 0, total_reviews := 0, is_freelancer := false
                freelancer_categories := [], freelancer_availability := ""
                show_phone := false, show_email := false,
                created_at := today } :: store.profiles }
          let gig : Gig :=
            { id := gigId
              title := (dictGet data "title").getD "Untitled"
              description := (dictGet data "description").getD ""
              category := (dictGet data "category").getD "Other"
              location := (dictGet data "location").getD "Remote"
              budget_min := bmin, budget_max := bmax
              duration_start := today, duration_end := today + days
              people_needed := 1, is_urgent := false, status := "open"
              created_by := userId, created_at := today, applications_count := 0 }
          ({ store1 with gigs := gig :: store1.gigs }, some gig)

structure FreelancerResult where
  categories : List String
  availability : String
  location : String
  deriving DecidableEq, Repr

/-- `register_freelancer_from_telegram`: upsert the `telegram_{chat_id}`
profile with freelancer fields. -/
def registerFreelancerFromTelegram (data : List (String × String))
    (chatId userName : String) (store : Store) (today : Int) :
    Store × Option FreelancerResult :=
  let userId := "telegram_" ++ chatId
  let categories := ((splitOnChar ',' ((dictGet data "categories").getD "Other").toList).map
    (fun cs => pyStrip ⟨cs⟩))
  let availability := (dictGet data "availability").getD "Flexible"
  let location := (dictGet data "location").getD ""
  let bio := (dictGet data "bio").getD ""
  let store1 :=
    if store.profiles.any (fun p => p.id == userId) then
      { store with profiles := store.profiles.map (fun p =>
          if p.id == userId then
            { p with is_freelancer := true, freelancer_categories := categories
                     freelancer_availability := availability
                     location := location, bio := bio }
          else p) }
    else
      { store with profiles :=
        { id := userId, email := userId ++ "@telegram.user", name := userName
          password_hash := none, bio := bio, location := location
          skills := [], rating := 0, total_reviews := 0, is_freelancer := true
          freelancer_categories := categories
          freelancer_availability := availability
          show_phone := false, show_email := false
          created_at := today } :: store.profiles }
  (store1, some ⟨categories, availability, location⟩)

/-- `search_gigs_for_telegram`: open gigs, optional case-insensitive
substring match on category, newest five. -/
def searchGigsForTelegram (category : Option String) (store : Store) : List Gig :=
  (store.gigs.filter (fun g =>
    g.status == "open" &&
    (match category with
     | some c => strContains (pyLower g.category) (pyLower c)
     | none => true))).take 5

def gigsFoundResponse (gigs : List Gig) : String :=
  "🔍 Found " ++ toString gigs.length ++ " gigs:\n\n" ++
  String.join (gigs.enum.map (fun ig =>
    toString (ig.1 + 1) ++ ". **" ++ ig.2.title ++ "**\n   💰 $" ++
    toString ig.2.budget_min ++ "-$" ++ toString ig.2.budget_max ++
    " | 📍 " ++ ig.2.location ++ "\n\n")) ++
  "Want to apply? Visit: https://talentplus-3.preview.emergentagent.com/gigs"

def gigCreatedResponse (g : Gig) : String :=
  "🎉 **Gig Posted Successfully!**\n\n" ++
  "**Title:** " ++ g.title ++ "\n" ++
  "**Category:** " ++ g.category ++ "\n" ++
  "**Budget:** $" ++ toString g.budget_min ++ "-$" ++ toString g.budget_max ++ "\n" ++
  "**Location:** " ++ g.location ++ "\n\n" ++
  "View it at: https://talentplus-3.preview.emergentagent.com/gigs/" ++ g.id

def freelancerCreatedResponse (r : FreelancerResult) : String :=
  "🎉 **You're now a freelancer!**\n\n" ++
  "**Skills:** " ++ String.intercalate ", " r.categories ++ "\n" ++
  "**Availability:** " ++ r.availability ++ "\n" ++
  "**Location:** " ++ r.location ++ "\n\n" ++
  "Start finding gigs by saying 'find gigs'!"

/-- `get_telegram_ai_response`: the completion text on HTTP 200, otherwise
one of two canned fallback strings — it never raises. -/
def getTelegramAiResponse (ai : AICallResult) : String :=
  match ai with
  | .success text => text
  | .httpError _ =>
      "I'm having trouble right now. Try: 'post a gig', 'register as freelancer', or 'find gigs'"
  | .exception =>
      "Hi! I can help you post gigs, register as a freelancer, or find work. What would you like to do?"

/-- `handle_telegram_wizard` on a session whose user message was already
recorded in `session.history` by `telegram_chat`. -/
def handleTelegramWizard (session : Session) (message : String) (chatId : String)
    (store : Store) (gigId : String) (today : Int) :
    Session × Store × TgResponse :=
  if cancelWords.contains (pyLower message) then
    let response := "Cancelled! What else can I help with?"
    ({ session with wizard_mode := none, wizard_step := 0, wizard_data := []
                    history := session.history ++ [("assistant", response)] },
     store, ⟨true, response⟩)
  else
    match session.wizard_mode with
    | some .postGig =>
        match TELEGRAM_GIG_STEPS.get? session.wizard_step with
        | none =>
            -- steps[step_idx] raises IndexError, caught by the broad except
            ({ session with wizard_mode := none }, store,
             ⟨false, "Error processing. Try again!"⟩)
        | some current_step =>
            let data1 := dictSet session.wizard_data current_step.1 message
            if h : session.wizard_step + 1 < TELEGRAM_GIG_STEPS.length then
              let next_step := TELEGRAM_GIG_STEPS.get ⟨session.wizard_step + 1, h⟩
              let response := "Got it! ✅\n\n" ++ next_step.2
              ({ session with wizard_data := data1
                              wizard_step := session.wizard_step + 1
                              history := session.history ++ [("assistant", response)] },
               store, ⟨true, response⟩)
            else
              let result := createGigFromTelegram data1 chatId session.user_name store gigId today
              let response :=
                match result.2 with
                | some g => gigCreatedResponse g
                | none => "Failed to create gig. Please try again!"
              ({ session with wizard_mode := none, wizard_step := 0, wizard_data := []
                              history := session.history ++ [("assistant", response)] },
               result.1, ⟨true, response⟩)
    | some .registerFreelancer =>
        match TELEGRAM_FREELANCER_STEPS.get? session.wizard_step with
        | none =>
            ({ session with wizard_mode := none }, store,
             ⟨false, "Error processing. Try again!"⟩)
        | some current_step =>
            let data1 := dictSet session.wizard_data current_step.1 message
            if h : session.wizard_step + 1 < TELEGRAM_FREELANCER_STEPS.length then
              let next_step := TELEGRAM_FREELANCER_STEPS.get ⟨session.wizard_step + 1, h⟩
              let response := "Great! ✅\n\n" ++ next_step.2
              ({ session with wizard_data := data1
                              wizard_step := session.wizard_step + 1
                              history := session.history ++ [("assistant", response)] },
               store, ⟨true, response⟩)
            else
              let result := registerFreelancerFromTelegram data1 chatId session.user_name store today
              let response :=
                match result.2 with
                | some r => freelancerCreatedResponse r
                | none => "Failed to register. Please try again!"
              ({ session with wizard_mode := none, wizard_step := 0, wizard_data := []
                              history := session.history ++ [("assistant", response)] },
               result.1, ⟨true, response⟩)
    | none =>
        ({ session with wizard_mode := none }, store,
         ⟨true, "Something went wrong. Try again!"⟩)

/-- `POST /api/telegram/chat` for one chat's already-looked-up session:
record the (stripped) user message into the history bounded to the last 30,
dispatch to the wizard when one is active, otherwise on trigger phrases
start a wizard or run the gig search, else fall through to the completion
API. -/
def telegramChat (session : Session) (store : Store) (data : TelegramMessage)
    (ai : AICallResult) (gigId : String) (today : Int) :
    Session × Store × TgResponse :=
  let message := pyStrip data.message
  let s1 : Session := { session with
    user_name := pyOrStr data.user_name session.user_name
    history := takeLast 30 (session.history ++ [("user", message)]) }
  if s1.wizard_mode.isSome then
    handleTelegramWizard s1 message data.chat_id store gigId today
  else
    let lowerMsg := pyLower message
    if containsAny lowerMsg postGigWords then
      let step := TELEGRAM_GIG_STEPS.headD ("", "")
      let response := "Let's create your gig! 📝\n\n" ++ step.2
      ({ s1 with wizard_mode := some .postGig, wizard_step := 0, wizard_data := []
                 history := s1.history ++ [("assistant", response)] },
       store, ⟨true, response⟩)
    else if containsAny lowerMsg freelancerWords then
      let step := TELEGRAM_FREELANCER_STEPS.headD ("", "")
      let response := "Let's set you up as a freelancer! 🚀\n\n" ++ step.2
      ({ s1 with wizard_mode := some .registerFreelancer, wizard_step := 0
                 wizard_data := []
                 history := s1.history ++ [("assistant", response)] },
       store, ⟨true, response⟩)
    else if containsAny lowerMsg findGigWords then
      let category := GIG_CATEGORIES.find? (fun c => strContains lowerMsg (pyLower c))
      let gigs := searchGigsForTelegram category store
      let response :=
        if gigs.length > 0 then gigsFoundResponse gigs
        else "No gigs found. Try different keywords or check back later!"
      ({ s1 with history := s1.history ++ [("assistant", response)] },
       store, ⟨true, response⟩)
    else
      let response := getTelegramAiResponse ai
      ({ s1 with history := s1.history ++ [("assistant", response)] },
       store, ⟨true, response⟩)

/-- `get_current_user` (the mandatory dependency): 401 when the bearer
credential is absent, expired ("Token expired"), fails signature/shape
checks, or carries a falsy `sub` ("Invalid token"). -/
def get_current_user (credentials : Option Token) (now : Int) :
    Except (Nat × String) UserObj :=
  match credentials with
  | none => .error (401, "Not authenticated")
  | some t =>
      match jwtDecode t JWT_SECRET now with
      | .ok p =>
          match p.sub with
          | none => .error (401, "Invalid token")
          | some uid =>
              if uid = "" then .error (401, "Invalid token")
              else .ok ⟨uid, p.email⟩
      | .expired => .error (401, "Token expired")
      | .invalid => .error (401, "Invalid token")

/-! ## Concrete fixtures used by witnesses -/

def c4ProfileBefore : Profile :=
  ⟨"u", "e", "N", none, "", "", [], 5, 1, false, [], "", false, false, 0⟩

def c4ProfileAfter : Profile :=
  ⟨"u", "e", "N", none, "", "", [], 7 / 2, 2, false, [], "", false, false, 0⟩

def c4Store : Store :=
  ⟨[c4ProfileBefore], [], [], [⟨"r1", "a", "u", "g1", 5, none, 0⟩]⟩

end PerfectGigs

namespace PerfectGigs

/-- C1: a token from `create_access_token` decodes successfully at any time
strictly before issued-at + 7 days, to a payload whose subject and email are
the inputs (and `get_current_user` accepts it, for a non-empty user id); at
or after expiry, verification fails as Expired and `get_current_user`
rejects with 401 "Token expired"; a signature mismatch (wrong secret) or a
shape mismatch (malformed token) is rejected with 401 "Invalid token". -/
theorem token_lifecycle_c1 (uid email : String) (iat now : Int) :
    (now < iat + 7 * 24 * 3600 →
      jwtDecode (create_access_token iat uid email) JWT_SECRET now =
        .ok { sub := some uid, email := some email,
              exp := iat + 7 * 24 * 3600, iat := iat }) ∧
    (uid ≠ "" → now < iat + 7 * 24 * 3600 →
      get_current_user (some (create_access_token iat uid email)) now =
        .ok ⟨uid, some email⟩) ∧
    (iat + 7 * 24 * 3600 ≤ now →
      get_current_user (some (create_access_token iat uid email)) now =
        .error (401, "Token expired")) ∧
    (∀ p s, s ≠ JWT_SECRET →
      get_current_user (some (Token.signed p s)) now =
        .error (401, "Invalid token")) ∧
    (∀ raw, get_current_user (some (Token.malformed raw)) now =
        .error (401, "Invalid token")) := by
  refine ⟨?_, ?_, ?_, ?_, ?_⟩
  · intro h
    simp only [create_access_token, jwtEncode, jwtDecode, JWT_EXPIRATION_HOURS]
    rw [if_pos trivial, if_neg (by omega)]
    norm_num
  · intro huid h
    simp only [get_current_user, create_access_token, jwtEncode, jwtDecode,
      JWT_EXPIRATION_HOURS]
    rw [if_pos trivial, if_neg (by omega)]
    simp [huid]
  · intro h
    simp only [get_current_user, create_access_token, jwtEncode, jwtDecode,
      JWT_EXPIRATION_HOURS]
    rw [if_pos trivial, if_pos (by omega)]
  · intro p s hs
    simp [get_current_user, jwtDecode, hs]
  · intro raw
    simp [get_current_user, jwtDecode]

/-- C1 witness: concrete instantiation at uid "u1", issued at time 0,
checked at 1 second (valid) and at exactly 7 days (expired). -/
theorem token_lifecycle_c1_witness :
    get_current_user (some (create_access_token 0 "u1" "a@b.com")) 1 =
      .ok ⟨"u1", some "a@b.com"⟩ ∧
    get_current_user (some (create_access_token 0 "u1" "a@b.com")) 604800 =
      .error (401, "Token expired") ∧
    get_current_user (some (Token.signed ⟨some "u1", some "a@b.com", 604800, 0⟩ "wrong")) 1 =
      .error (401, "Invalid token") := by
  refine ⟨?_, ?_, ?_⟩
  · exact (token_lifecycle_c1 "u1" "a@b.com" 0 1).2.1 (by decide) (by norm_num)
  · exact (token_lifecycle_c1 "u1" "a@b.com" 0 604800).2.2.1 (by norm_num)
  · exact (token_lifecycle_c1 "u1" "a@b.com" 0 1).2.2.2.1
      ⟨some "u1", some "a@b.com", 604800, 0⟩ "wrong" (by decide)

/-- C3: from any wizard state, a cancellation keyword returns the session to
idle — wizard mode cleared, step reset to 0, answer map emptied — and leaves
the store untouched (no gig insert, no profile update). -/
theorem wizard_cancel_c3 (session : Session) (store : Store)
    (chatId msg : String) (userName : Option String) (ai : AICallResult)
    (gigId : String) (today : Int) (m : WizardMode)
    (hmode : session.wizard_mode = some m)
    (hcancel : cancelWords.contains (pyLower (pyStrip msg)) = true) :
    (telegramChat session store ⟨chatId, msg, userName⟩ ai gigId today).1.wizard_mode = none ∧
    (telegramChat session store ⟨chatId, msg, userName⟩ ai gigId today).1.wizard_step = 0 ∧
    (telegramChat session store ⟨chatId, msg, userName⟩ ai gigId today).1.wizard_data = [] ∧
    (telegramChat session store ⟨chatId, msg, userName⟩ ai gigId today).2.1 = store := by
  have hc : pyLower (pyStrip msg) ∈ cancelWords := by simpa using hcancel
  simp [telegramChat, handleTelegramWizard, hmode, hc]

/-- C3 witness: a session mid-way through the gig wizard (step 2, two
answers collected), cancelled with "Cancel". -/
theorem wizard_cancel_c3_witness :
    (telegramChat ⟨[("user", "post a gig")], some .postGig, 2,
        [("title", "T"), ("description", "D")], "U"⟩
      ⟨[], [], [], []⟩ ⟨"7", "Cancel", none⟩ (.success "t") "g" 0).1.wizard_mode = none ∧
    (telegramChat ⟨[("user", "post a gig")], some .postGig, 2,
        [("title", "T"), ("description", "D")], "U"⟩
      ⟨[], [], [], []⟩ ⟨"7", "Cancel", none⟩ (.success "t") "g" 0).1.wizard_data = [] ∧
    (telegramChat ⟨[("user", "post a gig")], some .postGig, 2,
        [("title", "T"), ("description", "D")], "U"⟩
      ⟨[], [], [], []⟩ ⟨"7", "Cancel", none⟩ (.success "t") "g" 0).2.1 = ⟨[], [], [], []⟩ := by
  have h := wizard_cancel_c3 ⟨[("user", "post a gig")], some .postGig, 2,
      [("title", "T"), ("description", "D")], "U"⟩
    ⟨[], [], [], []⟩ "7" "Cancel" none (.success "t") "g" 0 .postGig rfl (by decide)
  exact ⟨h.1, h.2.2.1, h.2.2.2⟩

/-- Length bound used for the history invariant: `l[-n:]` has at most `n`
entries. -/
theorem takeLast_length_le (n : Nat) (l : List α) : (takeLast n l).length ≤ n := by
  simp only [takeLast, List.length_drop]
  omega

/-- The wizard handler appends at most one history entry. -/
theorem handleTelegramWizard_history_le (session : Session) (message chatId : String)
    (store : Store) (gigId : String) (today : Int) :
    (handleTelegramWizard session message chatId store gigId today).1.history.length ≤
      session.history.length + 1 := by
  unfold handleTelegramWizard
  repeat' split
  all_goals simp

/-- C9 (amended): after every `telegram_chat` call the session's history
holds at most 31 entries — the history is truncated to the last 30 after
recording the user message, and at most one assistant reply is appended
afterwards with no further truncation. -/
theorem history_bound_c9 (session : Session) (store : Store)
    (data : TelegramMessage) (ai : AICallResult) (gigId : String) (today : Int) :
    (telegramChat session store data ai gigId today).1.history.length ≤ 31 := by
  unfold telegramChat
  have h30 : (takeLast 30 (session.history ++ [("user", pyStrip data.message)])).length ≤ 30 :=
    takeLast_length_le 30 _
  dsimp only
  split
  · calc (handleTelegramWizard _ _ _ _ _ _).1.history.length
        ≤ _ + 1 := handleTelegramWizard_history_le _ _ _ _ _ _
      _ ≤ 31 := by simp only []; omega
  · split
    · simp only [List.length_append, List.length_singleton]; omega
    · split
      · simp only [List.length_append, List.length_singleton]; omega
      · split
        · simp only [List.length_append, List.length_singleton]; omega
        · simp only [List.length_append, List.length_singleton]; omega

/-- C9 counterexample: with a 30-entry history in an idle session, one
"post a gig" call leaves 31 entries — the claimed 30-entry bound fails. -/
theorem history_bound_c9_counterexample :
    (telegramChat ⟨List.replicate 30 ("user", "x"), none, 0, [], "U"⟩
        ⟨[], [], [], []⟩ ⟨"1", "post a gig", none⟩ (.success "t") "g" 0).1.history.length
      = 31 := by decide

/-- C5 (amended): when the session is idle, the message matches no action
keyword and the completion-API call fails (non-200 or exception), the
endpoint returns a canned apology string — but with success = TRUE, not
false: `get_telegram_ai_response` swallows the failure and returns the
fallback text, so `telegram_chat` takes its normal success path.  The store
is untouched. -/
theorem ai_failure_c5 (session : Session) (store : Store) (data : TelegramMessage)
    (gigId : String) (today : Int) (n : Nat)
    (hidle : session.wizard_mode = none)
    (hpost : containsAny (pyLower (pyStrip data.message)) postGigWords = false)
    (hfree : containsAny (pyLower (pyStrip data.message)) freelancerWords = false)
    (hfind : containsAny (pyLower (pyStrip data.message)) findGigWords = false) :
    (telegramChat session store data (.httpError n) gigId today).2.2 =
      ⟨true, "I'm having trouble right now. Try: 'post a gig', 'register as freelancer', or 'find gigs'"⟩ ∧
    (telegramChat session store data .exception gigId today).2.2 =
      ⟨true, "Hi! I can help you post gigs, register as a freelancer, or find work. What would you like to do?"⟩ ∧
    (telegramChat session store data (.httpError n) gigId today).2.1 = store := by
  refine ⟨?_, ?_, ?_⟩ <;>
    simp [telegramChat, getTelegramAiResponse, hidle, hpost, hfree, hfind]

/-- C5 witness: idle session, message "what can you do" (no keyword),
completion API failing with 502 and with an exception. -/
theorem ai_failure_c5_witness :
    (telegramChat (initSession none) ⟨[], [], [], []⟩ ⟨"1", "what can you do", none⟩
        (.httpError 502) "g" 0).2.2 =
      ⟨true, "I'm having trouble right now. Try: 'post a gig', 'register as freelancer', or 'find gigs'"⟩ ∧
    (telegramChat (initSession none) ⟨[], [], [], []⟩ ⟨"1", "what can you do", none⟩
        .exception "g" 0).2.2 =
      ⟨true, "Hi! I can help you post gigs, register as a freelancer, or find work. What would you like to do?"⟩ ∧
    (telegramChat (initSession none) ⟨[], [], [], []⟩ ⟨"1", "what can you do", none⟩
        (.httpError 502) "g" 0).2.1 = ⟨[], [], [], []⟩ :=
  ai_failure_c5 (initSession none) ⟨[], [], [], []⟩ ⟨"1", "what can you do", none⟩
    "g" 0 502 rfl (by decide) (by decide) (by decide)

/-- C5 counterexample: idle session, message "hello" (no keyword), HTTP 500
from the completion API — the response carries success = true, refuting the
claimed success = false. -/
theorem ai_failure_c5_counterexample :
    (telegramChat (initSession none) ⟨[], [], [], []⟩ ⟨"1", "hello", none⟩
        (.httpError 500) "g" 0).2.2 =
      ⟨true, "I'm having trouble right now. Try: 'post a gig', 'register as freelancer', or 'find gigs'"⟩ := by
  decide

/-- C6 (amended, for the cited handlers): a store failure in `list_gigs` or
`signup` is surfaced as HTTP 400 whose detail is the exception's own
message (returned to the caller, not only logged), and `get_stats` swallows
the failure entirely, answering HTTP 200 with zeroed stats — not the
claimed uniform 500 with a generic message. -/
theorem upstream_failure_c6 (e : String) (store : Store)
    (category location : Option String) (urgent : Option Bool) (status : String)
    (limit offset : Nat) (data : UserSignup) (uid : String) (now : Int) :
    list_gigs store (some e) category location urgent status limit offset =
      .error (400, e) ∧
    get_stats store (some e) = ⟨0, 0⟩ ∧
    (signup store (some e) data uid now).1 = .error (400, e) ∧
    (signup store (some e) data uid now).2 = store :=
  ⟨rfl, rfl, rfl, rfl⟩

/-- C6 counterexample: a concrete store failure in `list_gigs` yields
status 400 carrying the raw error text — not 500, and not generic. -/
theorem upstream_failure_c6_counterexample :
    list_gigs ⟨[], [], [], []⟩ (some "connection reset by peer") none none none
        "open" 20 0 =
      .error (400, "connection reset by peer") ∧
    get_stats ⟨[], [], [], []⟩ (some "connection reset by peer") = ⟨0, 0⟩ :=
  ⟨rfl, rfl⟩

/-- C7: signup with an email already in the profiles store fails with 400
and inserts nothing; with a fresh email it succeeds (HTTP 200), inserts
exactly one profile, and the body carries the user's email and an access
token that verifies on subsequent requests before its expiry. -/
theorem signup_conflict_c7 (store : Store) (data : UserSignup) (uid : String)
    (now : Int) :
    ((store.profiles.filter (fun p => p.email == data.email)).length > 0 →
      (signup store none data uid now).1 = .error (400, "Email already registered") ∧
      (signup store none data uid now).2 = store) ∧
    (store.profiles.filter (fun p => p.email == data.email) = [] →
      ∃ resp,
        (signup store none data uid now).1 = .ok resp ∧
        resp.user.email = data.email ∧
        resp.access_token = create_access_token now uid data.email ∧
        (∀ t, t < now + 7 * 24 * 3600 →
          jwtDecode resp.access_token JWT_SECRET t =
            .ok ⟨some uid, some data.email, now + 7 * 24 * 3600, now⟩) ∧
        (signup store none data uid now).2.profiles.length = store.profiles.length + 1 ∧
        (signup store none data uid now).2.profiles.tail = store.profiles) := by
  constructor
  · intro h
    simp only [signup]
    rw [if_pos h]
    exact ⟨rfl, rfl⟩
  · intro h
    simp only [signup, h]
    refine ⟨_, rfl, rfl, rfl, ?_, by simp, rfl⟩
    intro t ht
    simp only [create_access_token, jwtEncode, jwtDecode, JWT_EXPIRATION_HOURS]
    rw [if_pos trivial, if_neg (by omega)]
    norm_num

/-- C7 witness: fresh signup on an empty store succeeds, a second signup
with the same email hits the conflict branch. -/
theorem signup_conflict_c7_witness :
    ((⟨[], [], [], []⟩ : Store).profiles.filter
        (fun p => p.email == ("a@b.com" : String)) = [] ∧
      ∃ resp,
        (signup ⟨[], [], [], []⟩ none ⟨"a@b.com", "x", "A"⟩ "u1" 0).1 = .ok resp ∧
        resp.user.email = "a@b.com") ∧
    (((signup ⟨[], [], [], []⟩ none ⟨"a@b.com", "x", "A"⟩ "u1" 0).2.profiles.filter
        (fun p => p.email == ("a@b.com" : String))).length > 0 ∧
      (signup (signup ⟨[], [], [], []⟩ none ⟨"a@b.com", "x", "A"⟩ "u1" 0).2 none
          ⟨"a@b.com", "y", "B"⟩ "u2" 5).1 = .error (400, "Email already registered")) := by
  constructor
  · refine ⟨by decide, ?_⟩
    obtain ⟨resp, h1, h2, -⟩ :=
      (signup_conflict_c7 ⟨[], [], [], []⟩ ⟨"a@b.com", "x", "A"⟩ "u1" 0).2 (by decide)
    exact ⟨resp, h1, h2⟩
  · refine ⟨by decide, ?_⟩
    exact ((signup_conflict_c7 (signup ⟨[], [], [], []⟩ none ⟨"a@b.com", "x", "A"⟩ "u1" 0).2
      ⟨"a@b.com", "y", "B"⟩ "u2" 5).1 (by decide)).1

/-- C8: a second application by the same applicant to the same gig is
rejected with 400 and inserts nothing; a first application inserts exactly
one row with status "pending". -/
theorem apply_once_c8 (store : Store) (gigId userId : String)
    (cover : Option String) (appId : String) (now : Int) :
    ((store.applications.filter
        (fun a => a.gig_id == gigId && a.applicant_id == userId)).length > 0 →
      (apply_to_gig store gigId userId cover appId now).1 = .error (400, "Already applied") ∧
      (apply_to_gig store gigId userId cover appId now).2 = store) ∧
    (store.applications.filter
        (fun a => a.gig_id == gigId && a.applicant_id == userId) = [] →
      ∃ app,
        (apply_to_gig store gigId userId cover appId now).1 = .ok app ∧
        app.status = "pending" ∧ app.gig_id = gigId ∧ app.applicant_id = userId ∧
        (apply_to_gig store gigId userId cover appId now).2.applications =
          app :: store.applications) := by
  constructor
  · intro h
    simp only [apply_to_gig]
    rw [if_pos h]
    exact ⟨rfl, rfl⟩
  · intro h
    simp only [apply_to_gig, h]
    exact ⟨_, rfl, rfl, rfl, rfl, rfl⟩

/-- C8 witness: first application to gig "g1" succeeds as "pending"; with
that row in the store, the identical second application is rejected. -/
theorem apply_once_c8_witness :
    ((⟨[], [], [], []⟩ : Store).applications.filter
        (fun a => a.gig_id == ("g1" : String) && a.applicant_id == ("u1" : String)) = [] ∧
      ∃ app,
        (apply_to_gig ⟨[], [], [], []⟩ "g1" "u1" none "a1" 0).1 = .ok app ∧
        app.status = "pending") ∧
    (((apply_to_gig ⟨[], [], [], []⟩ "g1" "u1" none "a1" 0).2.applications.filter
        (fun a => a.gig_id == ("g1" : String) && a.applicant_id == ("u1" : String))).length > 0 ∧
      (apply_to_gig (apply_to_gig ⟨[], [], [], []⟩ "g1" "u1" none "a1" 0).2
          "g1" "u1" none "a2" 1).1 = .error (400, "Already applied")) := by
  constructor
  · refine ⟨by decide, ?_⟩
    obtain ⟨app, h1, h2, -⟩ :=
      (apply_once_c8 ⟨[], [], [], []⟩ "g1" "u1" none "a1" 0).2 (by decide)
    exact ⟨app, h1, h2⟩
  · refine ⟨by decide, ?_⟩
    exact ((apply_once_c8 (apply_to_gig ⟨[], [], [], []⟩ "g1" "u1" none "a1" 0).2
      "g1" "u1" none "a2" 1).1 (by decide)).1

/-- C10: `get_profile` returns the stored row exactly as found, stripping
nothing; after a signup, the stored row still carries `password_hash`, and
`get_profile` serves it — while the signup response's own user object has
the field removed. -/
theorem profile_leaks_hash_c10 (store : Store) (data : UserSignup) (uid : String)
    (now : Int)
    (hfresh : store.profiles.filter (fun p => p.email == data.email) = []) :
    (∀ (st : Store) (u : String) (p : Profile),
        st.profiles.find? (fun q => q.id == u) = some p →
        get_profile st u = .ok p) ∧
    (∃ p, get_profile (signup store none data uid now).2 uid = .ok p ∧
        p.password_hash = some (hash_password data.password)) ∧
    (∀ resp, (signup store none data uid now).1 = .ok resp →
        resp.user.password_hash = none) := by
  refine ⟨?_, ?_, ?_⟩
  · intro st u p hfind
    simp [get_profile, hfind]
  · refine ⟨{ id := uid, email := data.email, name := data.name
              password_hash := some (hash_password data.password)
              bio := "", location := "", skills := [], rating := 0
              total_reviews := 0, is_freelancer := false
              freelancer_categories := [], freelancer_availability := ""
              show_phone := false, show_email := false, created_at := now },
            ?_, rfl⟩
    simp only [signup, hfresh]
    simp [get_profile]
  · intro resp hr
    simp only [signup, hfresh] at hr
    simp only [List.length_nil, gt_iff_lt, Nat.lt_irrefl, if_false] at hr
    cases hr
    rfl

/-- C10 witness: concrete signup then profile fetch — the fetched row
carries the password hash, the signup response does not. -/
theorem profile_leaks_hash_c10_witness :
    (∃ p, get_profile (signup ⟨[], [], [], []⟩ none ⟨"a@b.com", "pw", "A"⟩ "u1" 0).2 "u1" =
        .ok p ∧ p.password_hash = some (hash_password "pw")) ∧
    (∀ resp, (signup ⟨[], [], [], []⟩ none ⟨"a@b.com", "pw", "A"⟩ "u1" 0).1 = .ok resp →
        resp.user.password_hash = none) := by
  have h := profile_leaks_hash_c10 ⟨[], [], [], []⟩ ⟨"a@b.com", "pw", "A"⟩ "u1" 0 (by decide)
  exact ⟨h.2.1, h.2.2⟩

/-- C4: after `create_review` inserts a rating for subject u, u's profile
row carries the arithmetic mean of all of u's stored ratings (the new one
included) rounded to one decimal, and `total_reviews` equals their count. -/
theorem review_average_c4 (store : Store) (reviewerId : String)
    (data : ReviewCreate) (rid : String) (now : Int) (p : Profile)
    (hp : p ∈ (create_review store reviewerId data rid now).1.profiles)
    (hid : p.id = data.reviewed_user_id) :
    p.rating = pyRound1
      (((ratingsFor (create_review store reviewerId data rid now).1.reviews
            data.reviewed_user_id).map (fun r => (r : ℚ))).sum /
        ((ratingsFor (create_review store reviewerId data rid now).1.reviews
            data.reviewed_user_id).length : ℚ)) ∧
    p.total_reviews =
      (ratingsFor (create_review store reviewerId data rid now).1.reviews
          data.reviewed_user_id).length := by
  simp only [create_review, List.mem_map] at hp ⊢
  obtain ⟨q, hq, hfq⟩ := hp
  by_cases h : q.id == data.reviewed_user_id
  · rw [if_pos h] at hfq
    subst hfq
    exact ⟨by norm_num, rfl⟩
  · rw [if_neg h] at hfq
    subst hfq
    exact absurd (by simp [hid]) h

/-- C4 witness: subject "u" with one stored 5-star review receives a 2-star
review; the profile is updated to mean 3.5 over 2 reviews. -/
theorem review_average_c4_witness :
    (c4ProfileAfter ∈
        (create_review c4Store "reviewer1" ⟨"u", "g1", 2, none⟩ "r2" 9).1.profiles ∧
      c4ProfileAfter.id = "u") ∧
    c4ProfileAfter.rating = pyRound1
      (((ratingsFor (create_review c4Store "reviewer1" ⟨"u", "g1", 2, none⟩ "r2" 9).1.reviews
            "u").map (fun r => (r : ℚ))).sum /
        ((ratingsFor (create_review c4Store "reviewer1" ⟨"u", "g1", 2, none⟩ "r2" 9).1.reviews
            "u").length : ℚ)) ∧
    c4ProfileAfter.total_reviews =
      (ratingsFor (create_review c4Store "reviewer1" ⟨"u", "g1", 2, none⟩ "r2" 9).1.reviews
          "u").length := by
  have hp : c4ProfileAfter ∈
      (create_review c4Store "reviewer1" ⟨"u", "g1", 2, none⟩ "r2" 9).1.profiles := by
    simp [create_review, ratingsFor, c4Store, c4ProfileBefore, c4ProfileAfter]
    norm_num [pyRound1, roundHalfEven]
  have h := review_average_c4 c4Store "reviewer1" ⟨"u", "g1", 2, none⟩ "r2" 9
    c4ProfileAfter hp rfl
  exact ⟨⟨hp, rfl⟩, h.1, h.2⟩

/-- Advancing one step of the gig wizard: a non-cancel answer is stored
under the current step's key and the step index increments; the store is
untouched. -/
theorem postGig_wizard_advance (s : Session) (store : Store) (chatId msg : String)
    (un : Option String) (ai : AICallResult) (g : String) (today : Int)
    (i : Nat) (k : String)
    (hmode : s.wizard_mode = some .postGig) (hstep : s.wizard_step = i)
    (hi : i + 1 < TELEGRAM_GIG_STEPS.length)
    (hkey : (TELEGRAM_GIG_STEPS[i]?).map Prod.fst = some k)
    (hcancel : cancelWords.contains (pyLower (pyStrip msg)) = false) :
    (telegramChat s store ⟨chatId, msg, un⟩ ai g today).1.wizard_mode = some .postGig ∧
    (telegramChat s store ⟨chatId, msg, un⟩ ai g today).1.wizard_step = i + 1 ∧
    (telegramChat s store ⟨chatId, msg, un⟩ ai g today).1.wizard_data =
      dictSet s.wizard_data k (pyStrip msg) ∧
    (telegramChat s store ⟨chatId, msg, un⟩ ai g today).2.1 = store := by
  have hc : ¬ (pyLower (pyStrip msg) ∈ cancelWords) := by simpa using hcancel
  have hlt : i < TELEGRAM_GIG_STEPS.length := Nat.lt_of_succ_lt hi
  have hget : TELEGRAM_GIG_STEPS[i]? = some (TELEGRAM_GIG_STEPS[i]) :=
    List.getElem?_eq_getElem hlt
  have hk : (TELEGRAM_GIG_STEPS[i]).1 = k := by
    rw [hget] at hkey
    simpa using hkey
  simp [telegramChat, handleTelegramWizard, hmode, hstep, hc, hget, hi, hk]

/-- Completing the gig wizard at step 5: the answer is stored under
"duration", the gig built from the six collected answers is inserted, and
the session returns to idle. -/
theorem postGig_wizard_complete (s : Session) (store : Store) (chatId msg : String)
    (un : Option String) (ai : AICallResult) (g : String) (today : Int)
    (bmin bmax : ℚ) (days : Int)
    (hmode : s.wizard_mode = some .postGig) (hstep : s.wizard_step = 5)
    (hcancel : cancelWords.contains (pyLower (pyStrip msg)) = false)
    (hbudget : parseBudget ((dictGet (dictSet s.wizard_data "duration" (pyStrip msg))
        "budget").getD "50-100") = some (bmin, bmax))
    (hdur : parseDuration ((dictGet (dictSet s.wizard_data "duration" (pyStrip msg))
        "duration").getD "30") = some days) :
    (telegramChat s store ⟨chatId, msg, un⟩ ai g today).1.wizard_mode = none ∧
    (telegramChat s store ⟨chatId, msg, un⟩ ai g today).1.wizard_step = 0 ∧
    (telegramChat s store ⟨chatId, msg, un⟩ ai g today).1.wizard_data = [] ∧
    (telegramChat s store ⟨chatId, msg, un⟩ ai g today).2.1.gigs =
      { id := g
        title := (dictGet (dictSet s.wizard_data "duration" (pyStrip msg)) "title").getD "Untitled"
        description := (dictGet (dictSet s.wizard_data "duration" (pyStrip msg)) "description").getD ""
        category := (dictGet (dictSet s.wizard_data "duration" (pyStrip msg)) "category").getD "Other"
        location := (dictGet (dictSet s.wizard_data "duration" (pyStrip msg)) "location").getD "Remote"
        budget_min := bmin, budget_max := bmax
        duration_start := today, duration_end := today + days
        people_needed := 1, is_urgent := false, status := "open"
        created_by := "telegram_" ++ chatId, created_at := today
        applications_count := 0 } :: store.gigs := by
  have hc : ¬ (pyLower (pyStrip msg) ∈ cancelWords) := by simpa using hcancel
  have h5 : TELEGRAM_GIG_STEPS[5]? =
      some ("duration", "How many days until deadline? (e.g., 7, 14, 30)") := rfl
  simp only [telegramChat, handleTelegramWizard, hmode, hstep]
  simp [hc, h5, hbudget, hdur, createGigFromTelegram]
  split
  · next h6 => exact absurd h6 (by decide)
  · refine ⟨rfl, rfl, rfl, ?_⟩
    split <;> rfl

/-- Starting the gig wizard from idle on a trigger phrase. -/
theorem postGig_wizard_start (s : Session) (store : Store) (chatId msg : String)
    (un : Option String) (ai : AICallResult) (g : String) (today : Int)
    (hidle : s.wizard_mode = none)
    (htrig : containsAny (pyLower (pyStrip msg)) postGigWords = true) :
    (telegramChat s store ⟨chatId, msg, un⟩ ai g today).1.wizard_mode = some .postGig ∧
    (telegramChat s store ⟨chatId, msg, un⟩ ai g today).1.wizard_step = 0 ∧
    (telegramChat s store ⟨chatId, msg, un⟩ ai g today).1.wizard_data = [] ∧
    (telegramChat s store ⟨chatId, msg, un⟩ ai g today).2.1 = store := by
  simp [telegramChat, hidle, htrig]

/-- C2: from an idle session, a post-gig trigger message followed by the six
wizard answers in order performs exactly one gig insert, whose title,
description, category, location, parsed budget range and parsed duration
match the six answers, and the session returns to idle (wizard mode cleared,
step 0, answer map empty).  The answers are assumed whitespace-trimmed, not
cancellation keywords, and with budget and duration that parse. -/
theorem wizard_post_gig_c2
    (s0 : Session) (store0 : Store) (chatId : String) (un : Option String)
    (ai : AICallResult) (gigId : String) (today : Int)
    (trig a0 a1 a2 a3 a4 a5 : String) (bmin bmax : ℚ) (days : Int)
    (hidle : s0.wizard_mode = none)
    (htrig : containsAny (pyLower (pyStrip trig)) postGigWords = true)
    (hs0 : pyStrip a0 = a0) (hs1 : pyStrip a1 = a1) (hs2 : pyStrip a2 = a2)
    (hs3 : pyStrip a3 = a3) (hs4 : pyStrip a4 = a4) (hs5 : pyStrip a5 = a5)
    (hc0 : cancelWords.contains (pyLower a0) = false)
    (hc1 : cancelWords.contains (pyLower a1) = false)
    (hc2 : cancelWords.contains (pyLower a2) = false)
    (hc3 : cancelWords.contains (pyLower a3) = false)
    (hc4 : cancelWords.contains (pyLower a4) = false)
    (hc5 : cancelWords.contains (pyLower a5) = false)
    (hbudget : parseBudget a4 = some (bmin, bmax))
    (hdur : parseDuration a5 = some days) :
    let r1 := telegramChat s0 store0 ⟨chatId, trig, un⟩ ai gigId today
    let r2 := telegramChat r1.1 r1.2.1 ⟨chatId, a0, un⟩ ai gigId today
    let r3 := telegramChat r2.1 r2.2.1 ⟨chatId, a1, un⟩ ai gigId today
    let r4 := telegramChat r3.1 r3.2.1 ⟨chatId, a2, un⟩ ai gigId today
    let r5 := telegramChat r4.1 r4.2.1 ⟨chatId, a3, un⟩ ai gigId today
    let r6 := telegramChat r5.1 r5.2.1 ⟨chatId, a4, un⟩ ai gigId today
    let r7 := telegramChat r6.1 r6.2.1 ⟨chatId, a5, un⟩ ai gigId today
    r7.1.wizard_mode = none ∧ r7.1.wizard_step = 0 ∧ r7.1.wizard_data = [] ∧
    r7.2.1.gigs =
      { id := gigId, title := a0, description := a1, category := a2, location := a3
        budget_min := bmin, budget_max := bmax, duration_start := today
        duration_end := today + days, people_needed := 1, is_urgent := false
        status := "open", created_by := "telegram_" ++ chatId, created_at := today
        applications_count := 0 } :: store0.gigs := by
  intro r1 r2 r3 r4 r5 r6 r7
  obtain ⟨m1, st1, d1, sto1⟩ :=
    postGig_wizard_start s0 store0 chatId trig un ai gigId today hidle htrig
  obtain ⟨m2, st2, d2, sto2⟩ :=
    postGig_wizard_advance r1.1 r1.2.1 chatId a0 un ai gigId today 0 "title" m1 st1
      (by decide) rfl (by rw [hs0]; exact hc0)
  obtain ⟨m3, st3, d3, sto3⟩ :=
    postGig_wizard_advance r2.1 r2.2.1 chatId a1 un ai gigId today 1 "description" m2 st2
      (by decide) rfl (by rw [hs1]; exact hc1)
  obtain ⟨m4, st4, d4, sto4⟩ :=
    postGig_wizard_advance r3.1 r3.2.1 chatId a2 un ai gigId today 2 "category" m3 st3
      (by decide) rfl (by rw [hs2]; exact hc2)
  obtain ⟨m5, st5, d5, sto5⟩ :=
    postGig_wizard_advance r4.1 r4.2.1 chatId a3 un ai gigId today 3 "location" m4 st4
      (by decide) rfl (by rw [hs3]; exact hc3)
  obtain ⟨m6, st6, d6, sto6⟩ :=
    postGig_wizard_advance r5.1 r5.2.1 chatId a4 un ai gigId today 4 "budget" m5 st5
      (by decide) rfl (by rw [hs4]; exact hc4)
  have hdata6 : dictSet r6.1.wizard_data "duration" (pyStrip a5) =
      [("title", a0), ("description", a1), ("category", a2), ("location", a3),
       ("budget", a4), ("duration", a5)] := by
    rw [hs5, d6, d5, d4, d3, d2, d1, hs0, hs1, hs2, hs3, hs4]
    simp [dictSet, TELEGRAM_GIG_STEPS]
  have hb : parseBudget ((dictGet (dictSet r6.1.wizard_data "duration" (pyStrip a5))
      "budget").getD "50-100") = some (bmin, bmax) := by
    rw [hdata6]
    simpa [dictGet] using hbudget
  have hd : parseDuration ((dictGet (dictSet r6.1.wizard_data "duration" (pyStrip a5))
      "duration").getD "30") = some days := by
    rw [hdata6]
    simpa [dictGet] using hdur
  obtain ⟨m7, st7, d7, g7⟩ :=
    postGig_wizard_complete r6.1 r6.2.1 chatId a5 un ai gigId today bmin bmax days
      m6 st6 (by rw [hs5]; exact hc5) hb hd
  refine ⟨m7, st7, d7, ?_⟩
  rw [g7, hdata6, sto6, sto5, sto4, sto3, sto2, sto1]
  simp [dictGet]

/-- C2 witness: the full concrete exchange — "post a gig" then the six
answers — inserts exactly the expected gig and leaves the session idle. -/
theorem wizard_post_gig_c2_witness :
    let r1 := telegramChat (initSession (some "Ann")) ⟨[], [], [], []⟩
      ⟨"42", "post a gig", none⟩ (.success "ok") "gig-1" 100
    let r2 := telegramChat r1.1 r1.2.1 ⟨"42", "Fix site", none⟩ (.success "ok") "gig-1" 100
    let r3 := telegramChat r2.1 r2.2.1 ⟨"42", "Fix my site", none⟩ (.success "ok") "gig-1" 100
    let r4 := telegramChat r3.1 r3.2.1 ⟨"42", "Web Development", none⟩ (.success "ok") "gig-1" 100
    let r5 := telegramChat r4.1 r4.2.1 ⟨"42", "Remote", none⟩ (.success "ok") "gig-1" 100
    let r6 := telegramChat r5.1 r5.2.1 ⟨"42", "50-100", none⟩ (.success "ok") "gig-1" 100
    let r7 := telegramChat r6.1 r6.2.1 ⟨"42", "7", none⟩ (.success "ok") "gig-1" 100
    r7.1.wizard_mode = none ∧ r7.1.wizard_step = 0 ∧ r7.1.wizard_data = [] ∧
    r7.2.1.gigs =
      { id := "gig-1", title := "Fix site", description := "Fix my site"
        category := "Web Development", location := "Remote"
        budget_min := 50, budget_max := 100, duration_start := 100
        duration_end := 100 + 7, people_needed := 1, is_urgent := false
        status := "open", created_by := "telegram_" ++ "42", created_at := 100
        applications_count := 0 } :: (⟨[], [], [], []⟩ : Store).gigs :=
  wizard_post_gig_c2 (initSession (some "Ann")) ⟨[], [], [], []⟩ "42" none
    (.success "ok") "gig-1" 100 "post a gig" "Fix site" "Fix my site"
    "Web Development" "Remote" "50-100" "7" 50 100 7
    rfl (by decide) (by decide) (by decide) (by decide) (by decide) (by decide)
    (by decide) (by decide) (by decide) (by decide) (by decide) (by decide)
    (by decide) (by decide) (by decide)

end PerfectGigs
